import Mathlib

/-!
# Verification of the MSD Python library and simulation worker

Shallow embedding of the two Python modules of this repository:

* `lib/python/MSD.py` — the `Vector`, `Molecule` and `MSD` bindings, and in
  particular the geometry-resolution logic of `MSD.__init__`, the cursor
  (iterator) arithmetic shared by `Molecule._Node`, `Molecule._Edge` and
  `MSD._Iterator`, and the `__getitem__` of the node/edge iterables.
* `src/msd_server/MSDWorker.py` — the line-oriented simulation worker:
  `setParameters`, `sim`, and the command loop of `main`.

Python floats are embedded as rationals (exact field arithmetic stands in
for IEEE doubles; none of the verified properties depend on rounding).
Python ints are embedded as `Int`.  The opaque C simulation engine
(`msd_clib`) is not modelled: calls to `metropolis` are recorded as trace
events, and engine-held state (spins, seed, results) is outside the model.
-/

/-- Python `s.upper()` (ASCII). `String.toUpper` maps `Char.toUpper` over the
characters; we spell it via `String.data` so that it reduces in the kernel. -/
def pyUpper (s : String) : String := ⟨s.data.map Char.toUpper⟩

/-- Python `int(a / 2)` for an integer `a`: true division followed by
truncation toward zero, i.e. `Int.tdiv`.  Used by `MSD.__init__` for
`int((width - molLen) / 2)` and `int((width - 1) / 2)`. -/
def pyHalf (a : Int) : Int := Int.tdiv a 2

/-- `udc::Vector` (MSD.py class `Vector`): a 3-component real vector. -/
structure Vec where
  x : ℚ
  y : ℚ
  z : ℚ
deriving DecidableEq

/-- `Vector.ZERO`. -/
def Vec.zero : Vec := ⟨0, 0, 0⟩

/-- `Molecule.NodeParameters` (fields `Sm`, `Fm`, `Je0m`, `Am`). -/
structure NodeParameters where
  Sm : ℚ
  Fm : ℚ
  Je0m : ℚ
  Am : Vec
deriving DecidableEq

/-- `Molecule.NodeParameters.__init__` defaults. -/
def defaultNodeParameters : NodeParameters := ⟨1, 0, 0, Vec.zero⟩

/-- `Molecule.EdgeParameters` (fields `Jm`, `Je1m`, `Jeem`, `bm`, `Dm`). -/
structure EdgeParameters where
  Jm : ℚ
  Je1m : ℚ
  Jeem : ℚ
  bm : ℚ
  Dm : Vec
deriving DecidableEq

/-- `Molecule.EdgeParameters.__init__` defaults. -/
def defaultEdgeParameters : EdgeParameters := ⟨0, 0, 0, 0, Vec.zero⟩

/-- One logical (unique) molecule edge: the two node indices passed to
`connectNodes` plus its `EdgeParameters` record. -/
structure EdgeRec where
  src : Nat
  dest : Nat
  params : EdgeParameters
deriving DecidableEq

/-- A `Molecule` prototype: ordered node list, unique-edge list, two leads.
(The directed duplication of edges lives in the iteration layer and is not
needed by the verified claims.) -/
structure MolGraph where
  nodes : List NodeParameters
  edges : List EdgeRec
  leftLead : Nat
  rightLead : Nat
deriving DecidableEq

/-- `MSD.Parameters` with the exact field list of MSD.py. -/
structure Parameters where
  kT : ℚ
  B : Vec
  SL : ℚ
  SR : ℚ
  FL : ℚ
  FR : ℚ
  JL : ℚ
  JR : ℚ
  JmL : ℚ
  JmR : ℚ
  JLR : ℚ
  Je0L : ℚ
  Je0R : ℚ
  Je1L : ℚ
  Je1R : ℚ
  Je1mL : ℚ
  Je1mR : ℚ
  Je1LR : ℚ
  JeeL : ℚ
  JeeR : ℚ
  JeemL : ℚ
  JeemR : ℚ
  JeeLR : ℚ
  bL : ℚ
  bR : ℚ
  bmL : ℚ
  bmR : ℚ
  bLR : ℚ
  AL : Vec
  AR : Vec
  DL : Vec
  DR : Vec
  DmL : Vec
  DmR : Vec
  DLR : Vec
deriving DecidableEq

/-- `MSD.Parameters.__init__` defaults. -/
def defaultParameters : Parameters :=
  ⟨1/4, Vec.zero, 1, 1, 0, 0, 1, 1, 1, -1, 0, 0, 0, 0, 0, 0, 0, 0,
   0, 0, 0, 0, 0, 0, 0, 0, 0, 0,
   Vec.zero, Vec.zero, Vec.zero, Vec.zero, Vec.zero, Vec.zero, Vec.zero⟩

/-- The worker-visible state of one `MSD` object: its `Parameters` record and
its embedded molecule prototype.  (Seed, spins, flux and the results record
live inside the opaque C engine and are not modelled.) -/
structure MsdState where
  params : Parameters
  mol : MolGraph
deriving DecidableEq

/-- A fresh `MSD` with default parameters and an empty molecule prototype
(`Molecule.__init__`: no nodes, no edges, both leads 0). -/
def initialMsdState : MsdState := ⟨defaultParameters, ⟨[], [], 0, 0⟩⟩

/-! ## Geometry resolution of `MSD.__init__` (MSD.py lines 647-739) -/

/-- Which `createMSD_*` entry point `MSD.__init__` ends up calling. -/
inductive MolCreate
  | fromProto (nodeCount : Nat)
  | fromType
  | defaultMol
deriving DecidableEq

/-- The geometry resolved by `MSD.__init__` and passed to the C engine. -/
structure MSDGeom where
  create : MolCreate
  molPosL : Int
  molPosR : Int
  topL : Int
  bottomL : Int
  frontR : Int
  backR : Int
deriving DecidableEq

/-- One axis-pair resolution block of `MSD.__init__`.  The same code shape
appears three times in the source: for `molLen`/`molPosL`/`molPosR`
(lines 673-685, extent `width`), for `heightL`/`topL`/`bottomL`
(lines 687-699, extent `height`) and for `depthR`/`frontR`/`backR`
(lines 701-713, extent `depth`).  It is entered only when the length is
given.  `ArgumentError` (the ConfigurationError of the spec) is embedded as
`Except.error`. -/
def resolveSpan (extent len : Int) (lo hi : Option Int) : Except String (Int × Int) :=
  match lo, hi with
  | some l, some r =>
    if len ≠ r - l + 1 then Except.error "span length mismatch"
    else Except.ok (l, r)
  | some l, none => Except.ok (l, l + (len - 1))
  | none, some r => Except.ok (r - (len - 1), r)
  | none, none =>
    let l := pyHalf (extent - len)
    Except.ok (l, l + (len - 1))

/-- The Python guard `if molPosL is None != molPosR is None:` of line 715.
Python parses this as a CHAINED comparison:
`(molPosL is None) and (None != molPosR) and (molPosR is None)`,
which is unsatisfiable (the last two conjuncts contradict each other). -/
def bothOrNeitherGuard (molPosL molPosR : Option Int) : Bool :=
  molPosL.isNone && molPosR.isSome && molPosR.isNone

/-- `MSD.__init__` (MSD.py lines 647-739), up to the choice of
`createMSD_p` / `createMSD_f` / `createMSD_i`.  `molProto` is embedded as
its node count (the only attribute `__init__` reads).  Each `raise
ArgumentError` of the source becomes `Except.error`; the interpolated parts
of the source messages are dropped. -/
def msdInit (width height depth : Int)
    (molProto : Option Nat) (molType : Bool)
    (molPosL molPosR topL bottomL frontR backR molPos molLen heightL depthR :
      Option Int) :
    Except String MSDGeom := do
  -- lines 655-660: molProto fixes molLen (or must agree with it)
  let molLen ← match molProto, molLen with
    | some nc, none => pure (some (nc : Int))
    | some nc, some l =>
      if (nc : Int) ≠ l then throw "molProto.nodeCount != molLen"
      else pure (some l)
    | none, l => pure l
  -- lines 662-671: molPos fixes molPosL / molPosR.  Note the source bug on
  -- line 670: the elif condition is `molPos != molPos` (always False), so an
  -- explicit molPosR unequal to molPos is never rejected.
  let molPosL ← match molPos, molPosL with
    | some p, none => pure (some p)
    | some p, some l =>
      if l ≠ p then throw "molPos != molPosL" else pure (some l)
    | none, l => pure l
  let molPosR ← match molPos, molPosR with
    | some p, none => pure (some p)
    | some p, some r =>
      if p ≠ p then throw "molPos != molPosR" else pure (some r)
    | none, r => pure r
  -- lines 673-685
  let molBounds ← match molLen with
    | none => pure (molPosL, molPosR)
    | some len => do
      let (l, r) ← resolveSpan width len molPosL molPosR
      pure (some l, some r)
  let (molPosL, molPosR) := molBounds
  -- lines 687-699
  let leadBounds ← match heightL with
    | none => pure (topL, bottomL)
    | some len => do
      let (t, b) ← resolveSpan height len topL bottomL
      pure (some t, some b)
  let (topL, bottomL) := leadBounds
  -- lines 701-713
  let rightBounds ← match depthR with
    | none => pure (frontR, backR)
    | some len => do
      let (f, b) ← resolveSpan depth len frontR backR
      pure (some f, some b)
  let (frontR, backR) := rightBounds
  -- lines 715-716: the broken both-or-neither check (see bothOrNeitherGuard)
  if bothOrNeitherGuard molPosL molPosR then
    throw "molPosL and molPosR must both be specified, implied, or omitted together"
  -- lines 718-720: centered single-column default.  Only molPosL is tested;
  -- when it is None, any molPosR that was given is silently overwritten.
  let (molPosL, molPosR) : Int × Option Int := match molPosL with
    | none => let c := pyHalf (width - 1); (c, some c)
    | some l => (l, molPosR)
  -- lines 722-729: lead-region defaults
  let topL := topL.getD 0
  let bottomL := bottomL.getD (height - 1)
  let frontR := frontR.getD 0
  let backR := backR.getD (depth - 1)
  -- lines 731-739: choice of C constructor
  if molProto.isSome && molType then
    throw "Can not specify both molProto and molType"
  match molProto with
  | some nc =>
    -- createMSD_p does not take molPosR.  Modelled from the spec: the engine
    -- places the prototype at [molPosL, molPosL + nodeCount - 1].
    pure ⟨.fromProto nc, molPosL, molPosL + ((nc : Int) - 1),
          topL, bottomL, frontR, backR⟩
  | none =>
    match molPosR with
    | some r =>
      pure ⟨if molType then .fromType else .defaultMol, molPosL, r,
            topL, bottomL, frontR, backR⟩
    | none =>
      -- a bare molPosL without molPosR reaches the ctypes boundary as None
      throw "TypeError: None is not a c_uint"

/-! ## Cursor arithmetic (MSD.py `_boundsCheck` line 43, `Molecule._Node`
lines 188-255, `Molecule._Edge` lines 287-363, `MSD._Iterator` lines 570-642:
the three classes share the same position arithmetic, embedded once here).
A cursor position over a collection of length `L` is its metaIndex, an
integer; `begin` is 0 and `end` is `L`.  Equality of cursors over the same
collection is equality of positions. -/

/-- `_boundsCheck(index, max)` with the default `min = 0`: raises IndexError
(the BoundsError of the spec) unless `0 <= index <= max`. -/
def boundsCheck (index mx : Int) : Except String Unit :=
  if index < 0 ∨ index > mx then Except.error "IndexError: index out of bounds"
  else Except.ok ()

/-- Cursor `begin` position. -/
def cursorBegin : Int := 0

/-- Cursor `end` position (one past the last element). -/
def cursorEnd (L : Nat) : Int := L

/-- `__add__` / `__iadd__`: offset a cursor forward, bounds-checked against
`[0, L]`. -/
def cursorAdd (L : Nat) (pos offset : Int) : Except String Int := do
  boundsCheck (pos + offset) L
  pure (pos + offset)

/-- `__sub__` / `__isub__`: offset a cursor backward, bounds-checked against
`[0, L]`. -/
def cursorSub (L : Nat) (pos offset : Int) : Except String Int := do
  boundsCheck (pos - offset) L
  pure (pos - offset)

/-- `next` (forward `__next__`): at `end` raises StopIteration; otherwise
returns the pre-advance snapshot and moves the live cursor one step forward.
Result is `(snapshot, new live position)`. -/
def cursorNext (L : Nat) (pos : Int) : Except String (Int × Int) :=
  if pos = cursorEnd L then Except.error "StopIteration"
  else Except.ok (pos, pos + 1)

/-- `_NodeIterable.__getitem__` (lines 173-178) and the identical
`_EdgeIterable.__getitem__` (lines 280-285):
`index = index % len(self)`, then `begin + index` when `index >= 0`, else
`end - -index`.  Python `%` with a zero length raises ZeroDivisionError;
for a positive length it is Euclidean mod, i.e. `Int.emod`. -/
def iterGetItem (L : Nat) (i : Int) : Except String Int :=
  if L = 0 then Except.error "ZeroDivisionError"
  else
    let index := i % (L : Int)
    if 0 ≤ index then cursorAdd L cursorBegin index
    else cursorSub L (cursorEnd L) (-index)

/-! ## Molecule serialization.
Modelled from the spec: `Molecule.serialize` / `Molecule.deserialize` /
`serializationSize` are implemented in the C++ engine (`MSD-export.cpp`,
not under src/; MSD.py lines 396-398 only bind them).  Per spec sections 4.1
and 6, the buffer holds a fixed header, the node count, one parameter block
per node, the (unique) edge count, one parameter block per edge, and the two
lead indices; deserialization repopulates an empty graph and reconstructs
parameter values but NOT edge connectivity (noted in the source as a known
bug on MSD.py line 397).  The buffer is abstracted as a list of records and
its size measured in records. -/

/-- One record of the serialized molecule buffer. -/
inductive SerWord
  | header
  | count (n : Nat)
  | nodeBlock (p : NodeParameters)
  | edgeBlock (p : EdgeParameters)
  | lead (n : Nat)
deriving DecidableEq

/-- Modelled from the spec: `Molecule.serializationSize` — header + node
count + node blocks + edge count + edge blocks + two lead indices. -/
def serializationSize (m : MolGraph) : Nat :=
  1 + 1 + m.nodes.length + 1 + m.edges.length + 2

/-- Modelled from the spec: `Molecule.serialize` writes header, node count,
per-node parameter blocks, edge count, per-edge parameter blocks, leads. -/
def serialize (m : MolGraph) : List SerWord :=
  .header :: .count m.nodes.length ::
    (m.nodes.map .nodeBlock ++
      (.count m.edges.length ::
        (m.edges.map (fun e => .edgeBlock e.params) ++
          [.lead m.leftLead, .lead m.rightLead])))

/-- Read `n` node-parameter blocks. -/
def parseNodes : Nat → List SerWord → Option (List NodeParameters × List SerWord)
  | 0, rest => some ([], rest)
  | n + 1, .nodeBlock p :: rest =>
    match parseNodes n rest with
    | some (ps, rest) => some (p :: ps, rest)
    | none => none
  | _ + 1, _ => none

/-- Read `n` edge-parameter blocks. -/
def parseEdges : Nat → List SerWord → Option (List EdgeParameters × List SerWord)
  | 0, rest => some ([], rest)
  | n + 1, .edgeBlock p :: rest =>
    match parseEdges n rest with
    | some (ps, rest) => some (p :: ps, rest)
    | none => none
  | _ + 1, _ => none

/-- Modelled from the spec: `Molecule.deserialize` repopulates an empty
prototype from a buffer.  Node and edge parameter values and the two leads
are reconstructed; edge connectivity is NOT (the known defect of MSD.py line
397): every edge is recreated with default endpoints 0 -> 0. -/
def deserialize (buf : List SerWord) : Option MolGraph :=
  match buf with
  | .header :: .count nn :: rest =>
    match parseNodes nn rest with
    | some (nps, .count ne :: rest2) =>
      match parseEdges ne rest2 with
      | some (eps, [.lead l, .lead r]) =>
        some ⟨nps, eps.map (fun p => ⟨0, 0, p⟩), l, r⟩
      | _ => none
    | _ => none
  | _ => none

/-! ## MSDWorker.py: parameter updates (`setParameters`, lines 103-142) -/

/-- A parsed SET / init JSON body after `readJSON`.  One `Option` field per
recognized parameter key (`MSD_PARAMS`, `MOL_NODE_PARAMS`, `MOL_EDGE_PARAMS`
of MSDWorker.py); `unknown` lists any remaining keys of the dict (they are
part of `kw.keys()` but match no filter). -/
structure SetBody where
  kT : Option ℚ
  B : Option Vec
  SL : Option ℚ
  SR : Option ℚ
  FL : Option ℚ
  FR : Option ℚ
  JL : Option ℚ
  JR : Option ℚ
  JmL : Option ℚ
  JmR : Option ℚ
  JLR : Option ℚ
  Je0L : Option ℚ
  Je0R : Option ℚ
  Je1L : Option ℚ
  Je1R : Option ℚ
  Je1mL : Option ℚ
  Je1mR : Option ℚ
  Je1LR : Option ℚ
  JeeL : Option ℚ
  JeeR : Option ℚ
  JeemL : Option ℚ
  JeemR : Option ℚ
  JeeLR : Option ℚ
  bL : Option ℚ
  bR : Option ℚ
  bmL : Option ℚ
  bmR : Option ℚ
  bLR : Option ℚ
  AL : Option Vec
  AR : Option Vec
  DL : Option Vec
  DR : Option Vec
  DmL : Option Vec
  DmR : Option Vec
  DLR : Option Vec
  Sm : Option ℚ
  Fm : Option ℚ
  Je0m : Option ℚ
  Am : Option Vec
  Jm : Option ℚ
  Je1m : Option ℚ
  Jeem : Option ℚ
  bm : Option ℚ
  Dm : Option Vec
  unknown : List String
deriving DecidableEq

/-- `{"kT", "B"}.issuperset(kw.keys())`: every key of the body is `kT` or
`B`. -/
def SetBody.onlyKTB (b : SetBody) : Bool :=
  b.SL.isNone && b.SR.isNone && b.FL.isNone && b.FR.isNone &&
  b.JL.isNone && b.JR.isNone && b.JmL.isNone && b.JmR.isNone && b.JLR.isNone &&
  b.Je0L.isNone && b.Je0R.isNone &&
  b.Je1L.isNone && b.Je1R.isNone && b.Je1mL.isNone && b.Je1mR.isNone &&
  b.Je1LR.isNone &&
  b.JeeL.isNone && b.JeeR.isNone && b.JeemL.isNone && b.JeemR.isNone &&
  b.JeeLR.isNone &&
  b.bL.isNone && b.bR.isNone && b.bmL.isNone && b.bmR.isNone && b.bLR.isNone &&
  b.AL.isNone && b.AR.isNone &&
  b.DL.isNone && b.DR.isNone && b.DmL.isNone && b.DmR.isNone && b.DLR.isNone &&
  b.Sm.isNone && b.Fm.isNone && b.Je0m.isNone && b.Am.isNone &&
  b.Jm.isNone && b.Je1m.isNone && b.Jeem.isNone && b.bm.isNone && b.Dm.isNone &&
  b.unknown.isEmpty

/-- `kw_p` is non-empty: the body holds at least one `MSD_PARAMS` key. -/
def SetBody.hasMsdParam (b : SetBody) : Bool :=
  b.kT.isSome || b.B.isSome ||
  b.SL.isSome || b.SR.isSome || b.FL.isSome || b.FR.isSome ||
  b.JL.isSome || b.JR.isSome || b.JmL.isSome || b.JmR.isSome || b.JLR.isSome ||
  b.Je0L.isSome || b.Je0R.isSome ||
  b.Je1L.isSome || b.Je1R.isSome || b.Je1mL.isSome || b.Je1mR.isSome ||
  b.Je1LR.isSome ||
  b.JeeL.isSome || b.JeeR.isSome || b.JeemL.isSome || b.JeemR.isSome ||
  b.JeeLR.isSome ||
  b.bL.isSome || b.bR.isSome || b.bmL.isSome || b.bmR.isSome || b.bLR.isSome ||
  b.AL.isSome || b.AR.isSome ||
  b.DL.isSome || b.DR.isSome || b.DmL.isSome || b.DmR.isSome || b.DLR.isSome

/-- `kw_node_p` is non-empty. -/
def SetBody.hasNodeParam (b : SetBody) : Bool :=
  b.Sm.isSome || b.Fm.isSome || b.Je0m.isSome || b.Am.isSome

/-- `kw_edge_p` is non-empty. -/
def SetBody.hasEdgeParam (b : SetBody) : Bool :=
  b.Jm.isSome || b.Je1m.isSome || b.Jeem.isSome || b.bm.isSome || b.Dm.isSome

/-- `MSD.Parameters(**{**msd.getParameters().__dict__, **kw_p})`: the current
record overlaid with exactly the given keys. -/
def overlayParameters (p : Parameters) (b : SetBody) : Parameters :=
  ⟨b.kT.getD p.kT, b.B.getD p.B,
   b.SL.getD p.SL, b.SR.getD p.SR, b.FL.getD p.FL, b.FR.getD p.FR,
   b.JL.getD p.JL, b.JR.getD p.JR, b.JmL.getD p.JmL, b.JmR.getD p.JmR,
   b.JLR.getD p.JLR,
   b.Je0L.getD p.Je0L, b.Je0R.getD p.Je0R,
   b.Je1L.getD p.Je1L, b.Je1R.getD p.Je1R, b.Je1mL.getD p.Je1mL,
   b.Je1mR.getD p.Je1mR, b.Je1LR.getD p.Je1LR,
   b.JeeL.getD p.JeeL, b.JeeR.getD p.JeeR, b.JeemL.getD p.JeemL,
   b.JeemR.getD p.JeemR, b.JeeLR.getD p.JeeLR,
   b.bL.getD p.bL, b.bR.getD p.bR, b.bmL.getD p.bmL, b.bmR.getD p.bmR,
   b.bLR.getD p.bLR,
   b.AL.getD p.AL, b.AR.getD p.AR,
   b.DL.getD p.DL, b.DR.getD p.DR, b.DmL.getD p.DmL, b.DmR.getD p.DmR,
   b.DLR.getD p.DLR⟩

/-- Per-node overlay inside the `kw_node_p` loop of `setParameters`. -/
def overlayNode (b : SetBody) (p : NodeParameters) : NodeParameters :=
  ⟨b.Sm.getD p.Sm, b.Fm.getD p.Fm, b.Je0m.getD p.Je0m, b.Am.getD p.Am⟩

/-- Per-edge overlay inside the `kw_edge_p` loop of `setParameters`. -/
def overlayEdge (b : SetBody) (e : EdgeRec) : EdgeRec :=
  ⟨e.src, e.dest,
   ⟨b.Jm.getD e.params.Jm, b.Je1m.getD e.params.Je1m,
    b.Jeem.getD e.params.Jeem, b.bm.getD e.params.bm, b.Dm.getD e.params.Dm⟩⟩

/-- `setParameters(msd, kw)` (MSDWorker.py lines 103-142).  When the body
keys are a subset of kT/B, the fast path sets only those two engine scalars;
otherwise the three filtered key groups are overlaid onto the full
`Parameters` record and onto every node and unique edge of the molecule
prototype.  Keys matching no filter are ignored. -/
def setParameters (st : MsdState) (b : SetBody) : MsdState :=
  if b.onlyKTB then
    { st with params :=
      { st.params with
        B := b.B.getD st.params.B,
        kT := b.kT.getD st.params.kT } }
  else
    let params := if b.hasMsdParam then overlayParameters st.params b else st.params
    let mol :=
      if b.hasNodeParam || b.hasEdgeParam then
        { st.mol with
          nodes := if b.hasNodeParam then st.mol.nodes.map (overlayNode b) else st.mol.nodes,
          edges := if b.hasEdgeParam then st.mol.edges.map (overlayEdge b) else st.mol.edges }
      else st.mol
    ⟨params, mol⟩

/-! ## MSDWorker.py: `sim` (lines 231-246)

`sim(msd, n, dkT, dB)` either delegates the whole batch to
`msd.metropolis(n)` (when `dkT == 0. and dB == 0.`) or runs a per-step loop
meant to ramp the temperature and field.  The per-step loop is embedded
together with the Python-level faults it actually hits:

* `dB` defaults to the FLOAT `0.` in `main` (RUN case, line 286) and is a
  `Vector` whenever the JSON gave one.  `Vector.__eq__` (MSD.py line 78) and
  `Vector.__iadd__` (line 94) pass their right operand to `ctypes.byref`,
  which raises TypeError for a plain float.
* `Vector.__iadd__` returns `None`, so the augmented assignment
  `p.B += dB` rebinds the ctypes field to `None`; assigning `None` to a
  `Vector`-typed structure field raises TypeError.

Hence `dkT == 0. and dB == 0.` succeeds only when `dB` is the float default;
a `Vector` right of `==` raises.  And the ramp loop body raises TypeError at
`p.B += dB` on its FIRST iteration (after `msd.metropolis(1)` has already
run and the local `p.kT` was incremented), for every shape of `dB`. -/

/-- The value bound to `dB` in `main`: the float default `0.` or a parsed
`Vector`. -/
inductive PyNum
  | float (q : ℚ)
  | vec (v : Vec)
deriving DecidableEq

/-- One call into the opaque C engine. -/
inductive EngineCall
  | metropolis (n : Int)
deriving DecidableEq

/-- Total simulation steps requested from the engine by a trace. -/
def stepsOf : List EngineCall → Int
  | [] => 0
  | .metropolis n :: rest => n + stepsOf rest

/-- Outcome of one `sim` call: the engine calls it made and the Python
exception it raised, if any.  (In no branch does `sim` manage to write kT or
B back to the MSD object: the ramp loop raises before reaching `msd.kT =`.) -/
structure SimResult where
  trace : List EngineCall
  err : Option String
deriving DecidableEq

/-- `sim(msd, n, dkT, dB)` (MSDWorker.py lines 231-246). -/
def sim (n : Int) (dkT : ℚ) (dB : PyNum) : SimResult :=
  match dB with
  | .float q =>
    if dkT = 0 ∧ q = 0 then
      -- msd.metropolis(n): one batch-atomic engine call
      ⟨[.metropolis n], none⟩
    else if n ≤ 0 then
      -- for _ in range(n) with an empty range: loop body never runs
      ⟨[], none⟩
    else
      -- first iteration: metropolis(1); p.kT += dkT; then p.B += dB raises
      -- TypeError (byref of a plain float inside Vector.__iadd__)
      ⟨[.metropolis 1], some "TypeError: byref() argument must be a ctypes instance"⟩
  | .vec _ =>
    if dkT = 0 then
      -- `dB == 0.` calls Vector.__eq__ with the float 0. and raises
      ⟨[], some "TypeError: byref() argument must be a ctypes instance"⟩
    else if n ≤ 0 then
      ⟨[], none⟩
    else
      -- first iteration: metropolis(1); p.kT += dkT; p.B += dB mutates the
      -- buffer but returns None, and `p.B = None` raises TypeError
      ⟨[.metropolis 1], some "TypeError: incompatible types, Vector expected instead of NoneType"⟩

/-! ## MSDWorker.py: the command loop of `main` (lines 265-328)

The loop is embedded as a one-input-line-per-step machine.  Input lines are
pre-parsed: a `text` line is a command or control line (never valid JSON),
and the `*Json` lines are the JSON bodies read by `readJSON` /
`json.loads(input())`.  Outputs are the stdout/stderr lines the worker
prints; RUN state lines carry the MSD state they serialize and are tagged by
the program point that printed them.  Exhausting the input list is
end-of-input: `input()` raises EOFError, `main` catches it with `pass`, and
the process finishes with exit status 0 WITHOUT printing GOODBYE (the
`print("GOODBYE")` sits inside the same `try`).  Any other uncaught
exception prints a traceback to stderr and exits with status 1. -/

/-- One pre-parsed input line. -/
inductive InLine
  | text (s : String)
  /-- RUN body: optional simCount, freq, dkT, dB (`kw.get` defaults apply). -/
  | runJson (simCount freq : Option Int) (dkT : Option ℚ) (dB : Option Vec)
  /-- SET body. -/
  | setJson (b : SetBody)
  /-- GET selector: a JSON list of field-group names. -/
  | getJson (what : List String)
  /-- RESET body (content engine-side, not modelled). -/
  | resetJson

/-- One output line of the worker. -/
inductive Out
  /-- the `print(state(msd))` of line 290, before any batch of a RUN -/
  | state0 (st : MsdState)
  /-- the in-run `print(state(msd))` of lines 295 and 299, after a batch -/
  | snapshot (st : MsdState)
  /-- GET state line (line 308) -/
  | stateOut (st : MsdState)
  /-- RESET seed line (line 312) -/
  | seedOut
  /-- the "DONE" of lines 274 and 301 -/
  | done
  /-- the "GOODBYE" of line 318 -/
  | goodbye
  /-- a stderr line (unrecognized command or traceback) -/
  | diag (s : String)
deriving DecidableEq

/-- What the worker is about to do with the next input line. -/
inductive Mode
  /-- top of the `while True` loop: read a command token -/
  | cmd
  /-- SET was read: read its JSON body -/
  | setBody
  /-- RUN was read: read its JSON body -/
  | runBody
  /-- GET was read: read its selector -/
  | getBody
  /-- RESET was read: read its body -/
  | resetBody
  /-- inside a RUN, a state line was just printed: read one control line -/
  | runCtl (simCount freq : Int) (dkT : ℚ) (dB : PyNum)
  /-- after the final partial batch: read and ignore one line -/
  | runLast

/-- Result of a worker run: printed lines, process exit status, and the
total number of simulation steps requested from the engine. -/
structure WorkerOut where
  outputs : List Out
  exitCode : Nat
  steps : Int
deriving DecidableEq

/-- Is this input line the literal cancellation token (`input().upper() ==
"CANCEL"`, lines 291/296)?  A JSON body line never uppercases to CANCEL. -/
def isCancel : InLine → Bool
  | .text s => pyUpper s == "CANCEL"
  | _ => false

/-- The command loop of `main` (MSDWorker.py lines 265-328), one input line
per step.  `steps` accumulates the engine steps requested so far and `acc`
the lines printed so far. -/
def wstep : Mode → MsdState → Int → List Out → List InLine → WorkerOut
  | _, _, steps, acc, [] =>
    -- EOFError: `except EOFError: pass` — silent successful shutdown,
    -- GOODBYE is NOT printed
    ⟨acc, 0, steps⟩
  | mode, st, steps, acc, line :: rest =>
    match mode, line with
    | .cmd, .text s =>
      match pyUpper s with
      | "EXIT" => ⟨acc ++ [.goodbye], 0, steps⟩
      | "SET" => wstep .setBody st steps acc rest
      | "RUN" => wstep .runBody st steps acc rest
      | "GET" => wstep .getBody st steps acc rest
      | "RESET" => wstep .resetBody st steps acc rest
      | c => wstep .cmd st steps (acc ++ [.diag ("Unrecognized command: " ++ c)]) rest
    | .cmd, _ =>
      -- a raw JSON line read as a command: matches no keyword
      wstep .cmd st steps (acc ++ [.diag "Unrecognized command"]) rest
    | .setBody, .setJson b =>
      wstep .cmd (setParameters st b) steps (acc ++ [.done]) rest
    | .setBody, _ =>
      -- body line fails to parse as a SET body: uncaught, fatal
      ⟨acc ++ [.diag "traceback"], 1, steps⟩
    | .runBody, .runJson simCount freq dkT dB =>
      match simCount with
      | none => ⟨acc ++ [.diag "traceback: KeyError: simCount"], 1, steps⟩
      | some n =>
        let f0 := freq.getD 0
        let f := if f0 ≤ 0 then n else f0
        let dkT := dkT.getD 0
        let dB : PyNum := match dB with
          | none => .float 0
          | some v => .vec v
        -- line 290: print(state(msd)), then read one control line
        wstep (.runCtl n f dkT dB) st steps (acc ++ [.state0 st]) rest
    | .runBody, _ => ⟨acc ++ [.diag "traceback"], 1, steps⟩
    | .runCtl simCount f dkT dB, l =>
      if isCancel l then
        -- cont = False: while loop and final batch are skipped
        wstep .cmd st steps (acc ++ [.done]) rest
      else if simCount ≥ f then
        -- one while-loop iteration: sim, decrement, snapshot, read again
        let r := sim f dkT dB
        let steps := steps + stepsOf r.trace
        match r.err with
        | some e => ⟨acc ++ [.diag ("traceback: " ++ e)], 1, steps⟩
        | none => wstep (.runCtl (simCount - f) f dkT dB) st steps (acc ++ [.snapshot st]) rest
      else if simCount > 0 then
        -- final partial batch, then one ignored input
        let r := sim simCount dkT dB
        let steps := steps + stepsOf r.trace
        match r.err with
        | some e => ⟨acc ++ [.diag ("traceback: " ++ e)], 1, steps⟩
        | none => wstep .runLast st steps (acc ++ [.snapshot st]) rest
      else
        wstep .cmd st steps (acc ++ [.done]) rest
    | .runLast, _ =>
      -- line 300: capture and ignore, then print DONE
      wstep .cmd st steps (acc ++ [.done]) rest
    | .getBody, .getJson _ =>
      -- the selector only restricts which groups appear in the printed JSON
      wstep .cmd st steps (acc ++ [.stateOut st]) rest
    | .getBody, _ => ⟨acc ++ [.diag "traceback"], 1, steps⟩
    | .resetBody, .resetJson =>
      wstep .cmd st steps (acc ++ [.seedOut]) rest
    | .resetBody, _ => ⟨acc ++ [.diag "traceback"], 1, steps⟩

/-- The worker command loop started in AWAITING_COMMAND on a given MSD. -/
def worker (inputs : List InLine) (st : MsdState) : WorkerOut :=
  wstep .cmd st 0 [] inputs

/-- A SET body whose dict is exactly `{"kT": v}` plus the listed unrecognized
keys. -/
def ktOnlyBody (v : ℚ) (ks : List String) : SetBody :=
  ⟨some v, none, none, none, none, none, none, none, none, none, none,
   none, none, none, none, none, none, none, none, none, none, none, none,
   none, none, none, none, none, none, none, none, none, none, none, none,
   none, none, none, none, none, none, none, none, none, ks⟩

/-- A SET body holding only unrecognized keys. -/
def unknownOnlyBody (ks : List String) : SetBody :=
  ⟨none, none, none, none, none, none, none, none, none, none, none,
   none, none, none, none, none, none, none, none, none, none, none, none,
   none, none, none, none, none, none, none, none, none, none, none, none,
   none, none, none, none, none, none, none, none, none, ks⟩

/-! # Theorems -/

/-! ## Shared reduction lemmas for the `Except` embedding -/

@[simp] theorem okBind {α β : Type} (a : α) (f : α → Except String β) :
    (Except.ok a >>= f) = f a := rfl

@[simp] theorem errorBind {α β : Type} (e : String) (f : α → Except String β) :
    (Except.error e >>= f : Except String β) = Except.error e := rfl

@[simp] theorem pureEqOk {α : Type} (a : α) :
    (pure a : Except String α) = Except.ok a := rfl

@[simp] theorem throwEqError {α : Type} (e : String) :
    (throw e : Except String α) = Except.error e := rfl

/-- `pyHalf` agrees with floor division by 2 on nonnegative arguments. -/
theorem pyHalf_eq_ediv {a : Int} (h : 0 ≤ a) : pyHalf a = a / 2 :=
  Int.tdiv_eq_ediv h (by omega)

/-! ## Cursor lemmas -/

theorem cursorAdd_ok {L : Nat} {pos k : Int} (h1 : 0 ≤ pos + k) (h2 : pos + k ≤ L) :
    cursorAdd L pos k = .ok (pos + k) := by
  simp only [cursorAdd, boundsCheck]
  rw [if_neg (by omega)]
  rfl

theorem cursorAdd_err {L : Nat} {pos k : Int} (h : pos + k < 0 ∨ pos + k > L) :
    cursorAdd L pos k = .error "IndexError: index out of bounds" := by
  simp only [cursorAdd, boundsCheck]
  rw [if_pos (by omega)]
  rfl

theorem cursorSub_ok {L : Nat} {pos k : Int} (h1 : 0 ≤ pos - k) (h2 : pos - k ≤ L) :
    cursorSub L pos k = .ok (pos - k) := by
  simp only [cursorSub, boundsCheck]
  rw [if_neg (by omega)]
  rfl

theorem cursorSub_err {L : Nat} {pos k : Int} (h : pos - k < 0 ∨ pos - k > L) :
    cursorSub L pos k = .error "IndexError: index out of bounds" := by
  simp only [cursorSub, boundsCheck]
  rw [if_pos (by omega)]
  rfl

/-- C6: for every cursor collection of length L, `begin + L` equals `end`;
`(begin + i) - i` equals `begin` for `0 ≤ i ≤ L`; stepping forward from
`end - 1` lands exactly on `end`; advancing from `end` raises the bounds
error; and every `+k` / `-k` whose result leaves `[0, L]` raises the bounds
error (IndexError, the BoundsError of the spec, from `_boundsCheck`). -/
theorem cursor_arithmetic_contract :
    (∀ L : Nat, cursorAdd L cursorBegin L = .ok (cursorEnd L))
    ∧ (∀ (L : Nat) (i : Int), 0 ≤ i → i ≤ L →
        cursorAdd L cursorBegin i = .ok i ∧ cursorSub L i i = .ok cursorBegin)
    ∧ (∀ L : Nat, 1 ≤ L →
        cursorSub L (cursorEnd L) 1 = .ok ((L : Int) - 1)
        ∧ cursorAdd L ((L : Int) - 1) 1 = .ok (cursorEnd L)
        ∧ cursorNext L ((L : Int) - 1) = .ok ((L : Int) - 1, cursorEnd L))
    ∧ (∀ L : Nat, cursorAdd L (cursorEnd L) 1 = .error "IndexError: index out of bounds")
    ∧ (∀ (L : Nat) (pos k : Int), pos + k < 0 ∨ pos + k > L →
        cursorAdd L pos k = .error "IndexError: index out of bounds")
    ∧ (∀ (L : Nat) (pos k : Int), pos - k < 0 ∨ pos - k > L →
        cursorSub L pos k = .error "IndexError: index out of bounds") := by
  refine ⟨?_, ?_, ?_, ?_, ?_, ?_⟩
  · intro L
    rw [cursorBegin, cursorEnd, cursorAdd_ok (by omega) (by omega)]
    norm_num
  · intro L i h1 h2
    constructor
    · rw [cursorBegin, cursorAdd_ok (by omega) (by omega)]
      norm_num
    · rw [cursorBegin, cursorSub_ok (by omega) (by omega)]
      norm_num
  · intro L hL
    refine ⟨?_, ?_, ?_⟩
    · rw [cursorEnd, cursorSub_ok (by omega) (by omega)]
    · rw [cursorEnd, cursorAdd_ok (by omega) (by omega)]
      norm_num
    · rw [cursorNext, cursorEnd, if_neg (by omega)]
      have e : (L : Int) - 1 + 1 = L := by omega
      rw [e]
  · intro L
    rw [cursorEnd, cursorAdd_err (by omega)]
  · intro L pos k h
    exact cursorAdd_err h
  · intro L pos k h
    exact cursorSub_err h

/-- Witness for `cursor_arithmetic_contract` at L = 3, i = 2, and an
out-of-range offset. -/
theorem cursor_arithmetic_contract_witness :
    (cursorAdd 3 cursorBegin 2 = .ok 2 ∧ cursorSub 3 2 2 = .ok cursorBegin)
    ∧ (cursorSub 3 (cursorEnd 3) 1 = .ok 2
        ∧ cursorAdd 3 2 1 = .ok (cursorEnd 3)
        ∧ cursorNext 3 2 = .ok (2, cursorEnd 3))
    ∧ cursorAdd 3 1 7 = .error "IndexError: index out of bounds"
    ∧ cursorSub 3 1 2 = .error "IndexError: index out of bounds" := by
  refine ⟨?_, ?_, ?_, ?_⟩
  · exact cursor_arithmetic_contract.2.1 3 2 (by decide) (by decide)
  · have h := cursor_arithmetic_contract.2.2.1 3 (by decide)
    have e : ((3 : Nat) : Int) - 1 = 2 := by decide
    rw [e] at h
    exact h
  · exact cursor_arithmetic_contract.2.2.2.2.1 3 1 7 (by decide)
  · exact cursor_arithmetic_contract.2.2.2.2.2 3 1 2 (by decide)

/-- C10: for a non-empty collection of length L, `__getitem__` with ANY
integer index returns the position `begin + (i mod L)` and never raises:
negative indices wrap back from the end and indices at or above L wrap
around, both by Python modulo. -/
theorem iterable_getitem_wraps :
    ∀ (L : Nat) (i : Int), 0 < L → iterGetItem L i = .ok (i % (L : Int)) := by
  intro L i hL
  have hL0 : (L : Int) ≠ 0 := by exact_mod_cast Nat.pos_iff_ne_zero.mp hL
  have h1 : 0 ≤ i % (L : Int) := Int.emod_nonneg i hL0
  have h2 : i % (L : Int) < (L : Int) := Int.emod_lt_of_pos i (by exact_mod_cast hL)
  rw [iterGetItem, if_neg (by omega)]
  simp only
  rw [if_pos h1, cursorBegin, cursorAdd_ok (by omega) (by omega)]
  norm_num

/-- Witness for `iterable_getitem_wraps`: length 5 with a negative and an
overflowing index. -/
theorem iterable_getitem_wraps_witness :
    iterGetItem 5 (-3) = .ok 2 ∧ iterGetItem 5 12 = .ok 2 := by
  constructor
  · have h := iterable_getitem_wraps 5 (-3) (by decide)
    have e : (-3 : Int) % ((5 : Nat) : Int) = 2 := by decide
    rw [e] at h
    exact h
  · have h := iterable_getitem_wraps 5 12 (by decide)
    have e : (12 : Int) % ((5 : Nat) : Int) = 2 := by decide
    rw [e] at h
    exact h

/-! ## Serialization lemmas -/

theorem parseNodes_append (ps : List NodeParameters) (rest : List SerWord) :
    parseNodes ps.length (ps.map .nodeBlock ++ rest) = some (ps, rest) := by
  induction ps with
  | nil => rfl
  | cons p ps ih =>
    simp only [List.length_cons, List.map_cons, List.cons_append, parseNodes,
      List.append_eq, ih]

theorem parseEdges_append (es : List EdgeRec) (rest : List SerWord) :
    parseEdges es.length (es.map (fun e => SerWord.edgeBlock e.params) ++ rest) =
      some (es.map (fun e => e.params), rest) := by
  induction es with
  | nil => rfl
  | cons e es ih =>
    simp only [List.length_cons, List.map_cons, List.cons_append, parseEdges,
      List.append_eq, ih]

/-- C5: serializing any molecule yields a buffer of exactly
`serializationSize` records; deserializing it into a fresh empty graph
reproduces the node list (hence node count and every node parameter value)
and the leads exactly, and every edge keeps only its parameter record while
its endpoints come back as the defaults — so edge connectivity does NOT
survive the round trip, witnessed by a two-node graph with one edge 0 -> 1
that comes back as 0 -> 0. -/
theorem molecule_serialization_roundtrip :
    (∀ m : MolGraph, (serialize m).length = serializationSize m)
    ∧ (∀ m : MolGraph,
        deserialize (serialize m) =
          some ⟨m.nodes, m.edges.map (fun e => ⟨0, 0, e.params⟩),
                m.leftLead, m.rightLead⟩)
    ∧ (∃ m m' : MolGraph,
        deserialize (serialize m) = some m'
        ∧ m'.nodes = m.nodes
        ∧ m'.edges.map (fun e => (e.src, e.dest)) ≠
            m.edges.map (fun e => (e.src, e.dest))) := by
  have hround : ∀ m : MolGraph,
      deserialize (serialize m) =
        some ⟨m.nodes, m.edges.map (fun e => ⟨0, 0, e.params⟩),
              m.leftLead, m.rightLead⟩ := by
    intro m
    rw [serialize, deserialize, parseNodes_append]
    simp only [parseEdges_append]
    simp
  refine ⟨?_, hround, ?_⟩
  · intro m
    simp [serialize, serializationSize]
    omega
  · refine ⟨⟨[defaultNodeParameters, defaultNodeParameters],
            [⟨0, 1, defaultEdgeParameters⟩], 0, 0⟩, _, hround _, rfl, ?_⟩
    decide

/-- C4: a SET body containing only the temperature key (plus possibly
unrecognized keys, which are ignored and raise nothing) rewrites exactly the
kT coefficient and leaves the whole rest of the Parameters record and every
(possibly non-uniform) node and edge parameter of the molecule untouched;
a body of only unrecognized keys is a no-op. -/
theorem setParameters_temperature_frame :
    (∀ (st : MsdState) (v : ℚ) (ks : List String),
        setParameters st (ktOnlyBody v ks) =
          ⟨{ st.params with kT := v }, st.mol⟩)
    ∧ (∀ (st : MsdState) (ks : List String),
        setParameters st (unknownOnlyBody ks) = st) := by
  constructor
  · intro st v ks
    cases ks <;> rfl
  · intro st ks
    cases ks <;> rfl

/-! ## Geometry lemmas -/

/-- Any successful axis-pair resolution satisfies the span invariant. -/
theorem resolveSpan_ok {extent len : Int} {lo hi : Option Int} {l r : Int}
    (h : resolveSpan extent len lo hi = .ok (l, r)) : r - l + 1 = len := by
  rcases lo with _ | l0 <;> rcases hi with _ | r0 <;>
    simp only [resolveSpan] at h
  · rcases h with ⟨h1, h2⟩
    omega
  · rcases h with ⟨h1, h2⟩
    omega
  · rcases h with ⟨h1, h2⟩
    omega
  · split at h
    · cases h
    · rcases h with ⟨h1, h2⟩
      omega

/-- `msdInit` with all three lengths given, no `molPos` and no prototype,
reduced to its three `resolveSpan` calls. -/
theorem msdInit_with_lengths (w h d : Int) (mt : Bool)
    (a b c e f g : Option Int) (lm lh ld : Int) :
    msdInit w h d none mt a b c e f g none (some lm) (some lh) (some ld) =
      (do
        let (l, r) ← resolveSpan w lm a b
        let (t, bo) ← resolveSpan h lh c e
        let (fr, ba) ← resolveSpan d ld f g
        pure (⟨if mt then .fromType else .defaultMol, l, r, t, bo, fr, ba⟩ :
          MSDGeom)) := by
  rcases h1 : resolveSpan w lm a b with e1 | ⟨l, r⟩ <;>
    rcases h2 : resolveSpan h lh c e with e2 | ⟨t, bo⟩ <;>
    rcases h3 : resolveSpan d ld f g with e3 | ⟨fr, ba⟩ <;>
    simp [msdInit, h1, h2, h3, bothOrNeitherGuard]

/-- C2: every successful axis-pair resolution (molecule span, left-lead
span, right-lead span) satisfies `right - left + 1 = length`; when neither
boundary is given the span is centered at `floor((extent - length) / 2)`
(for the physically meaningful case `0 ≤ length ≤ extent`, where the
truncating Python `int()` agrees with floor); and a length given together
with both boundaries that disagree with it makes construction fail. -/
theorem geometry_span_resolution :
    (∀ (extent len : Int) (lo hi : Option Int) (l r : Int),
        resolveSpan extent len lo hi = .ok (l, r) → r - l + 1 = len)
    ∧ (∀ (w h d : Int) (mt : Bool) (a b c e f g : Option Int)
        (lm lh ld : Int) (geom : MSDGeom),
        msdInit w h d none mt a b c e f g none (some lm) (some lh) (some ld) =
          .ok geom →
        geom.molPosR - geom.molPosL + 1 = lm
        ∧ geom.bottomL - geom.topL + 1 = lh
        ∧ geom.backR - geom.frontR + 1 = ld)
    ∧ (∀ extent len : Int, 0 ≤ len → len ≤ extent →
        resolveSpan extent len none none =
          .ok ((extent - len) / 2, (extent - len) / 2 + (len - 1)))
    ∧ (∀ w h d len : Int, 0 ≤ len → len ≤ w →
        msdInit w h d none false none none none none none none none (some len)
            none none =
          .ok ⟨.defaultMol, (w - len) / 2, (w - len) / 2 + (len - 1),
               0, h - 1, 0, d - 1⟩)
    ∧ (∀ w h d len l r : Int, len ≠ r - l + 1 →
        msdInit w h d none false (some l) (some r) none none none none none
            (some len) none none =
          .error "span length mismatch") := by
  refine ⟨fun _ _ _ _ _ _ h => resolveSpan_ok h, ?_, ?_, ?_, ?_⟩
  · intro w h d mt a b c e f g lm lh ld geom hg
    rw [msdInit_with_lengths] at hg
    rcases h1 : resolveSpan w lm a b with e1 | ⟨l, r⟩ <;> rw [h1] at hg
    · cases hg
    rcases h2 : resolveSpan h lh c e with e2 | ⟨t, bo⟩ <;> rw [h2] at hg
    · cases hg
    rcases h3 : resolveSpan d ld f g with e3 | ⟨fr, ba⟩ <;> rw [h3] at hg
    · cases hg
    simp only [okBind, pureEqOk, Except.ok.injEq] at hg
    subst hg
    exact ⟨resolveSpan_ok h1, resolveSpan_ok h2, resolveSpan_ok h3⟩
  · intro extent len h0 hle
    have e2 : pyHalf (extent - len) = (extent - len) / 2 :=
      pyHalf_eq_ediv (by omega)
    rw [← e2]
    rfl
  · intro w h d len h0 hle
    have e2 : pyHalf (w - len) = (w - len) / 2 := pyHalf_eq_ediv (by omega)
    rw [← e2]
    rfl
  · intro w h d len l r hne
    have hr : resolveSpan w len (some l) (some r) = .error "span length mismatch" := by
      rw [resolveSpan, if_pos hne]
    simp [msdInit, hr]

/-- Witness for `geometry_span_resolution`: width 13, molecule length 3
centered at columns 5..7; and the inconsistent triple length 3 with bounds
5 and 10 rejected. -/
theorem geometry_span_resolution_witness :
    msdInit 13 10 10 none false none none none none none none none (some 3)
        none none =
      .ok ⟨.defaultMol, 5, 7, 0, 9, 0, 9⟩
    ∧ msdInit 13 10 10 none false (some 5) (some 10) none none none none none
        (some 3) none none =
      .error "span length mismatch" := by
  constructor
  · have h := geometry_span_resolution.2.2.2.1 13 10 10 3 (by decide) (by decide)
    have e1 : ((13 : Int) - 3) / 2 = 5 := by decide
    rw [e1] at h
    have e2 : (5 : Int) + (3 - 1) = 7 := by decide
    rw [e2] at h
    have e3 : (10 : Int) - 1 = 9 := by decide
    rw [e3] at h
    exact h
  · exact geometry_span_resolution.2.2.2.2 13 10 10 3 5 10 (by decide)

/-- C9: `MSD.__init__` never rejects an inconsistent molecule-position
pair.  With `molPos` and an unequal explicit `molPosR` both given,
construction succeeds and keeps the given `molPosR` (line 670 compares
`molPos` with itself).  With only `molPosR` given, construction succeeds,
the given value is silently discarded, and both molecule bounds become the
centered single column `int((width - 1) / 2)` (the both-or-neither check of
line 715 is an always-false chained comparison). -/
theorem molpos_guard_never_fires :
    (∀ w h d p r : Int, p ≠ r →
        msdInit w h d none false none (some r) none none none none (some p)
            none none none =
          .ok ⟨.defaultMol, p, r, 0, h - 1, 0, d - 1⟩)
    ∧ (∀ w h d r : Int,
        msdInit w h d none false none (some r) none none none none none none
            none none =
          .ok ⟨.defaultMol, pyHalf (w - 1), pyHalf (w - 1), 0, h - 1, 0, d - 1⟩)
    ∧ (∀ a b : Option Int, bothOrNeitherGuard a b = false) := by
  refine ⟨?_, ?_, ?_⟩
  · intro w h d p r hne
    simp [msdInit, bothOrNeitherGuard]
  · intro w h d r
    rfl
  · intro a b
    cases b <;> simp [bothOrNeitherGuard]

/-- Witness for `molpos_guard_never_fires`: molPos 4 with an unequal
explicit molPosR 9 is accepted unchanged. -/
theorem molpos_guard_never_fires_witness :
    msdInit 13 10 10 none false none (some 9) none none none none (some 4)
        none none none =
      .ok ⟨.defaultMol, 4, 9, 0, 9, 0, 9⟩ := by
  have h := molpos_guard_never_fires.1 13 10 10 4 9 (by decide)
  have e : (10 : Int) - 1 = 9 := by decide
  rw [e] at h
  exact h

/-- C7: width 13 with explicit span 5..7 and a molecule-type tag constructs
successfully with molecule length 3; giving both a prototype and a type tag
fails; and a prototype whose node count disagrees with an explicit `molLen`
fails. -/
theorem lattice_construction_cases :
    (∀ h d : Int,
        msdInit 13 h d none true (some 5) (some 7) none none none none none
            none none none =
          .ok ⟨.fromType, 5, 7, 0, h - 1, 0, d - 1⟩)
    ∧ (∀ (h d : Int) (g : MSDGeom),
        msdInit 13 h d none true (some 5) (some 7) none none none none none
            none none none = .ok g →
        g.molPosR - g.molPosL + 1 = 3)
    ∧ (∀ (w h d : Int) (nc : Nat),
        msdInit w h d (some nc) true none none none none none none none none
            none none =
          .error "Can not specify both molProto and molType")
    ∧ (∀ (w h d : Int) (nc : Nat) (len : Int), (nc : Int) ≠ len →
        msdInit w h d (some nc) false none none none none none none none
            (some len) none none =
          .error "molProto.nodeCount != molLen") := by
  have h1 : ∀ h d : Int,
      msdInit 13 h d none true (some 5) (some 7) none none none none none
          none none none =
        .ok ⟨.fromType, 5, 7, 0, h - 1, 0, d - 1⟩ := fun h d => rfl
  refine ⟨h1, ?_, ?_, ?_⟩
  · intro h d g hg
    rw [h1] at hg
    cases hg
    norm_num
  · intro w h d nc
    rfl
  · intro w h d nc len hne
    simp [msdInit, hne]

/-- Witness for `lattice_construction_cases`: a 4-node prototype with an
explicit molLen of 3 is rejected. -/
theorem lattice_construction_cases_witness :
    msdInit 13 10 10 (some 4) false none none none none none none none
        (some 3) none none =
      .error "molProto.nodeCount != molLen" :=
  lattice_construction_cases.2.2.2 13 10 10 4 3 (by decide)

/-! ## Worker protocol theorems -/

/-- C1: a RUN with simCount 2,000,000 and freq 500,000, never cancelled,
prints the initial state line, then exactly 4 checkpoint snapshots, then the
DONE completion marker, with exactly 2,000,000 engine steps; answering the
first checkpoint snapshot with the CANCEL token yields exactly 1 checkpoint
snapshot before DONE and exactly 500,000 engine steps. -/
theorem run_snapshots_and_cancellation :
    ∀ st : MsdState,
      worker
          [.text "RUN", .runJson (some 2000000) (some 500000) none none,
           .text "CONTINUE", .text "CONTINUE", .text "CONTINUE",
           .text "CONTINUE", .text "CONTINUE"] st =
        ⟨[.state0 st, .snapshot st, .snapshot st, .snapshot st, .snapshot st,
          .done], 0, 2000000⟩
      ∧ worker
          [.text "RUN", .runJson (some 2000000) (some 500000) none none,
           .text "CONTINUE", .text "CANCEL"] st =
        ⟨[.state0 st, .snapshot st, .done], 0, 500000⟩ := by
  intro st
  constructor <;> rfl

/-- C8 counterexample: when the command loop ends by end-of-input the worker
prints NOTHING — in particular no GOODBYE line — and exits with status 0,
refuting the claim that GOODBYE is emitted on every loop end. -/
theorem goodbye_missing_on_eof :
    worker [] initialMsdState = ⟨[], 0, 0⟩
    ∧ Out.goodbye ∉ (worker [] initialMsdState).outputs := by
  refine ⟨rfl, ?_⟩
  intro hmem
  rw [show (worker [] initialMsdState).outputs = [] from rfl] at hmem
  cases hmem

/-- C8 (amended): an EXIT command ends the loop with the GOODBYE line and
exit status 0; end-of-input at any point of the protocol is a silent
successful shutdown — exit status 0 and no further output, so no GOODBYE
line either.
-/
theorem goodbye_exit_and_silent_eof :
    (∀ (st : MsdState) (steps : Int) (acc : List Out) (rest : List InLine),
        wstep .cmd st steps acc (.text "EXIT" :: rest) =
          ⟨acc ++ [.goodbye], 0, steps⟩)
    ∧ (∀ (mode : Mode) (st : MsdState) (steps : Int) (acc : List Out),
        wstep mode st steps acc [] = ⟨acc, 0, steps⟩) := by
  constructor
  · intro st steps acc rest
    rfl
  · intro mode st steps acc
    cases mode <;> rfl

/-- C3 (code behavior at the ramp): `sim` with both deltas zero (the float
defaults) delegates the whole batch as a single `metropolis` call, and
through `main`, a RUN with freq 0 runs the whole count as one batch
producing one snapshot; but with a nonzero per-step temperature delta the
ramp loop raises TypeError on its FIRST iteration (at `p.B += dB`, since
`Vector.__iadd__` returns `None` and `dB` defaults to a plain float), after
exactly one engine step — the linear step-by-step ramp described by the
spec never happens; a `dB` vector with `dkT == 0` already raises inside the
`dB == 0.` comparison, and through `main` such a RUN aborts the worker with
exit status 1. -/
theorem sim_ramp_single_batch_and_crash :
    (∀ n : Int, sim n 0 (.float 0) = ⟨[.metropolis n], none⟩)
    ∧ (∀ st : MsdState,
        worker [.text "RUN", .runJson (some 7) none none none,
                .text "GO", .text "GO"] st =
          ⟨[.state0 st, .snapshot st, .done], 0, 7⟩)
    ∧ (sim 2 (1/2) (.float 0) =
        ⟨[.metropolis 1],
         some "TypeError: byref() argument must be a ctypes instance"⟩)
    ∧ (∀ (st : MsdState) (v : Vec),
        sim 2 0 (.vec v) =
          ⟨[], some "TypeError: byref() argument must be a ctypes instance"⟩
        ∧ worker [.text "RUN", .runJson (some 2) none (some 0) (some v),
                  .text "GO"] st =
            ⟨[.state0 st,
              .diag "traceback: TypeError: byref() argument must be a ctypes instance"],
             1, 0⟩) := by
  refine ⟨?_, ?_, ?_, ?_⟩
  · intro n
    rw [sim, if_pos ⟨rfl, rfl⟩]
  · intro st
    rfl
  · rw [sim, if_neg (by norm_num), if_neg (by norm_num)]
  · intro st v
    constructor
    · rw [sim, if_pos rfl]
    · rfl
